import Mathlib

/-!
Verification of the brain-tumor dataset visualization script
(`visualize.py`).  The script hardcodes four tumor classes with parallel
`Training` and `Testing` image counts, builds a pandas `DataFrame` indexed
by class name, and renders a stacked bar chart with fixed title, axis
labels and legend.

The table-construction step (`pd.DataFrame(data)` followed by
`df.set_index('Class Name', inplace=True)`) is embedded as `build_table`:
it takes the ordered category names and the ordered series map and
produces, when every series has exactly one value per category, a table
whose rows pair each category (in declaration order) with the positional
values of every series.  A length mismatch makes the construction fail
(pandas raises `ValueError`), embedded as `none`.

The rendering step (`df.plot(kind='bar', stacked=True)` plus the
`ax.set_*` / `ax.legend` calls) is library behavior, modelled from the
spec where noted.
-/

/-- A table indexed by category: each row pairs a category name with the
values of every series at that category, in series declaration order. -/
structure Table where
  seriesNames : List String
  rows : List (String × List Nat)
deriving DecidableEq, Repr

/-- Embedding of the table construction in `visualize.py`
(`pd.DataFrame(data)` then `df.set_index('Class Name', inplace=True)`):
given the ordered category names and the ordered (series name, values)
pairs, produce the table pairing the i-th category with the i-th value of
every series; fail when some series length differs from the category
count, as `pd.DataFrame` does. -/
def build_table (categories : List String) (series_map : List (String × List Nat)) :
    Option Table :=
  if series_map.all (fun s => s.2.length == categories.length) then
    some { seriesNames := series_map.map Prod.fst,
           rows := categories.enum.map
             (fun p => (p.2, series_map.map (fun s => s.2.getD p.1 0))) }
  else
    none

/-- The `'Class Name'` column of the literal `data` dict in `visualize.py`. -/
def classNames : List String := ["Glioma", "Meningioma", "No tumor", "Pituitary"]

/-- The `'Training'` column of the literal `data` dict. -/
def trainingCounts : List Nat := [1100, 1144, 1241, 1370]

/-- The `'Testing'` column of the literal `data` dict. -/
def testingCounts : List Nat := [221, 195, 216, 225]

/-- The two numeric series of the literal `data` dict, in declaration
order. -/
def data : List (String × List Nat) :=
  [("Training", trainingCounts), ("Testing", testingCounts)]

/-- The constructed `df` of `visualize.py` after `set_index`. -/
def df : Option Table := build_table classNames data

/-- The concrete table carried by `df` (the construction succeeds on the
literal data). -/
def dfTable : Table := (build_table classNames data).getD ⟨[], []⟩

/-- Modelled from the spec: the stacked bar renderer
(`df.plot(kind='bar', stacked=True)`, library code outside this
repository) draws the segment for series `k` of a category's bar starting
at the cumulative sum of all series declared before `k`. -/
def segmentStart (values : List Nat) (k : Nat) : Nat := (values.take k).sum

/-- Modelled from the spec: the top of a category's whole stack is the sum
of all its series values. -/
def stackTop (values : List Nat) : Nat := values.sum

/-- Modelled from the spec: the rendered chart, holding the title, axis
labels, legend title, the legend entries (one per series, by series name)
and the table being drawn. -/
structure Chart where
  title : String
  xLabel : String
  yLabel : String
  legendTitle : String
  legendEntries : List String
  table : Table
deriving DecidableEq, Repr

/-- Modelled from the spec: `render` applies the given title, axis labels
and legend title to the chart, attaches one legend entry per series name,
and draws the given table unchanged
(`ax.set_title` / `ax.set_xlabel` / `ax.set_ylabel` / `ax.legend` in
`visualize.py`). -/
def render (t : Table) (title xl yl lt : String) : Chart :=
  { title := title, xLabel := xl, yLabel := yl, legendTitle := lt,
    legendEntries := t.seriesNames, table := t }

/-- The chart produced by the script: `df` rendered with the literal
strings of lines 21-26 of `visualize.py`. -/
def chart : Chart :=
  render dfTable "Brain Tumor Image Dataset (Training vs Testing)"
    "Tumor Class" "Number of Images" "Subset"

/-! ### Helper lemmas -/

theorem enumFrom_map_snd (n : Nat) (l : List α) :
    (List.enumFrom n l).map Prod.snd = l := by
  induction l generalizing n with
  | nil => rfl
  | cons x xs ih => simp [List.enumFrom, ih]

theorem enumFrom_length (n : Nat) (l : List α) :
    (List.enumFrom n l).length = l.length := by
  induction l generalizing n with
  | nil => rfl
  | cons x xs ih => simp [List.enumFrom, ih]

/-! ### Claims -/

/-- Claim C1: for the literal input embedded in the script, the table
construction produces exactly the four entries
Glioma→(1100, 221), Meningioma→(1144, 195), No tumor→(1241, 216),
Pituitary→(1370, 225), with series Training and Testing, and no other
entries. -/
theorem df_table_exact :
    df = some { seriesNames := ["Training", "Testing"],
                rows := [("Glioma", [1100, 221]), ("Meningioma", [1144, 195]),
                         ("No tumor", [1241, 216]), ("Pituitary", [1370, 225])] } := by
  decide

/-- Claim C2: in the rendered stacked bar chart, for every category the
Training segment starts at 0, the Testing segment starts at the Training
value, and the stack top equals Training + Testing; in particular the
Glioma stack top is 1321. -/
theorem stacked_chart_cumulative :
    (dfTable.rows.all (fun r =>
        segmentStart r.2 0 == 0 &&
        segmentStart r.2 1 == r.2.getD 0 0 &&
        stackTop r.2 == r.2.getD 0 0 + r.2.getD 1 0)) = true
    ∧ stackTop (dfTable.rows.getD 0 ("", [])).2 = 1321 := by
  decide

/-- Claim C3: whenever some series has a length different from the
category count, the table construction fails rather than producing a
table. -/
theorem build_table_rejects_mismatch (cs : List String)
    (sm : List (String × List Nat))
    (h : ∃ s ∈ sm, s.2.length ≠ cs.length) :
    build_table cs sm = none := by
  obtain ⟨s, hs, hlen⟩ := h
  unfold build_table
  rw [if_neg]
  intro hall
  exact hlen (by simpa using List.all_eq_true.mp hall s hs)

/-- Witness for C3: four category names with a 3-element Training series
are rejected. -/
theorem build_table_rejects_mismatch_witness :
    build_table ["Glioma", "Meningioma", "No tumor", "Pituitary"]
      [("Training", [1100, 1144, 1241])] = none :=
  build_table_rejects_mismatch _ _
    ⟨("Training", [1100, 1144, 1241]), by decide, by decide⟩

/-- Claim C4: for every successful construction, the category order of the
table equals the declaration order of the input category sequence — no
sorting is applied. -/
theorem build_table_preserves_order (cs : List String)
    (sm : List (String × List Nat)) (t : Table)
    (ht : build_table cs sm = some t) :
    t.rows.map Prod.fst = cs := by
  unfold build_table at ht
  split at ht
  · cases ht
    simp only [List.map_map, List.enum]
    have : (Prod.fst ∘ fun p : Nat × String =>
        (p.2, sm.map (fun s => s.2.getD p.1 0))) = Prod.snd := rfl
    rw [this, enumFrom_map_snd]
  · cases ht

/-- Witness for C4: an input declared in non-sorted order ("B" before "A")
keeps that order in the table. -/
theorem build_table_preserves_order_witness :
    (({ seriesNames := ["Training"],
        rows := [("B", [2]), ("A", [1])] } : Table)).rows.map Prod.fst
      = ["B", "A"] :=
  build_table_preserves_order ["B", "A"] [("Training", [2, 1])] _ (by decide)

/-- Claim C5: in the script's literal data, every series has exactly as
many values as there are categories (four), and the value-to-category
association is positional: the row for the i-th category carries the i-th
Training and i-th Testing count. -/
theorem series_positional_alignment :
    (data.all (fun s => s.2.length == classNames.length)) = true
    ∧ classNames.length = 4
    ∧ ((List.range 4).all (fun i =>
        (dfTable.rows.getD i ("", [])).2
          == [trainingCounts.getD i 0, testingCounts.getD i 0])) = true := by
  decide

/-- Claim C6: for every valid input (unique category names, every series
length equal to the category count), the construction succeeds and the
number of categories in the table equals the number of input category
names. -/
theorem build_table_category_count (cs : List String)
    (sm : List (String × List Nat)) (hu : cs.Nodup)
    (hlen : ∀ s ∈ sm, s.2.length = cs.length) :
    ∃ t, build_table cs sm = some t ∧ t.rows.length = cs.length := by
  refine ⟨{ seriesNames := sm.map Prod.fst,
            rows := cs.enum.map
              (fun p => (p.2, sm.map (fun s => s.2.getD p.1 0))) }, ?_, ?_⟩
  · unfold build_table
    rw [if_pos (List.all_eq_true.mpr (fun s hs => by simpa using hlen s hs))]
  · simp only [List.length_map, List.enum, enumFrom_length]

/-- Witness for C6: on the script's literal data the table has 4
categories. -/
theorem build_table_category_count_witness :
    ∃ t, build_table classNames data = some t
      ∧ t.rows.length = classNames.length :=
  build_table_category_count classNames data (by decide) (by decide)

/-- Claim C7: the table construction is deterministic — it depends only on
its input, so identical inputs yield identical tables. -/
theorem build_table_deterministic (cs₁ cs₂ : List String)
    (sm₁ sm₂ : List (String × List Nat))
    (hc : cs₁ = cs₂) (hs : sm₁ = sm₂) :
    build_table cs₁ sm₁ = build_table cs₂ sm₂ := by
  rw [hc, hs]

/-- Witness for C7: re-running the construction on the script's literal
input yields the identical table. -/
theorem build_table_deterministic_witness :
    build_table classNames data = build_table classNames data :=
  build_table_deterministic classNames classNames data data rfl rfl

/-- Claim C8: the rendering steps leave the constructed table unchanged —
the chart drawn by the script carries exactly the table built from the
literal constants, with the literal categories and series values. -/
theorem chart_preserves_table :
    chart.table = dfTable
    ∧ chart.table.rows.map Prod.fst = classNames
    ∧ chart.table.rows.map Prod.snd
        = [[1100, 221], [1144, 195], [1241, 216], [1370, 225]] := by
  decide

/-- Claim C9: `render` applies the given title and both axis labels to the
chart and attaches a legend with one entry per series name; in the
script's chart the legend entries are exactly Training and Testing. -/
theorem render_applies_labels (t : Table) (title xl yl lt : String) :
    (render t title xl yl lt).title = title
    ∧ (render t title xl yl lt).xLabel = xl
    ∧ (render t title xl yl lt).yLabel = yl
    ∧ (render t title xl yl lt).legendTitle = lt
    ∧ (render t title xl yl lt).legendEntries = t.seriesNames
    ∧ chart.legendEntries = ["Training", "Testing"] :=
  ⟨rfl, rfl, rfl, rfl, rfl, by decide⟩

/-- Claim C10: the rendered chart's text is exactly the fixed constants of
`visualize.py`: the given title, x-axis label `Tumor Class`, y-axis label
`Number of Images` and legend title `Subset`. -/
theorem chart_text_constants :
    chart.title = "Brain Tumor Image Dataset (Training vs Testing)"
    ∧ chart.xLabel = "Tumor Class"
    ∧ chart.yLabel = "Number of Images"
    ∧ chart.legendTitle = "Subset" :=
  ⟨rfl, rfl, rfl, rfl⟩
